import Mathlib

/-!
# Verification of the RAG Chat frontend (`Langchain-chroma-project-RAG`)

Shallow embedding of the TypeScript/React frontend of the RAG chat
application and, where the spec describes backend behaviour whose code is
not part of the repository snapshot, spec-modelled definitions of the Chat
Session Store.  Sources embedded here:

* `frontend/src/hooks/use-chat.ts` — the `useChat` hook: `sendMessage`,
  `getChatHistory`, `deleteChat`, `uploadDocument` and the data shapes
  `ChatMessage`, `Chat`, `ChatResponse`.
* `frontend/src/app/page.tsx` — the `ChatInterface` component: `handleSend`
  and `renderMessage`.
* `components/chat/chat-sidebar.tsx` — sorting of the chat list.
* `components/chat/document-upload.tsx` — `onDrop`, `handleUpload`,
  `formatFileSize`.

Strings model JS strings, `Nat` models non-negative integers (epoch
milliseconds, byte counts), `ℚ` models JS numbers where fractional values
occur (similarity scores), `Option` models `null`/`undefined`, and
`Except`/`Option` model request failure.
-/

/-- A retrieved-source entry attached to an assistant message
(`sources` element of `ChatMessage`/`ChatResponse` in `use-chat.ts`):
`content`, `metadata` (of which only `page` is consumed, by
`renderMessage`), and `similarity_score`. -/
structure Source where
  content : String
  page : Option Nat
  similarity_score : ℚ
  deriving Repr, DecidableEq

/-- The `ChatMessage` interface of `use-chat.ts`. -/
structure ChatMessage where
  id : String
  chat_id : String
  user_id : String
  message : String
  response : String
  message_type : String
  sources : List Source
  timestamp : String
  deriving Repr, DecidableEq

/-- The `Chat` interface of `use-chat.ts` (a session summary). -/
structure Chat where
  chat_id : String
  title : String
  created_at : String
  last_message_at : String
  message_count : Nat
  deriving Repr, DecidableEq

/-- The `ChatResponse` interface of `use-chat.ts`: what `POST /api/chat`
returns on success. -/
structure ChatResponse where
  response : String
  chat_id : String
  sources : List Source
  timestamp : String
  deriving Repr, DecidableEq

/-- The body `sendMessage` posts to `POST /api/chat`
(`use-chat.ts`, lines 81–89). -/
structure SendMessageRequest where
  message : String
  chat_id : Option String
  include_sources : Bool
  deriving Repr, DecidableEq

/-- `sendMessage`'s request construction: it always posts
`{ message, chat_id: chatId, include_sources: true }`. -/
def sendMessageRequest (message : String) (chatId : Option String) :
    SendMessageRequest :=
  { message := message, chat_id := chatId, include_sources := true }

/-- JS `String.prototype.trim()`: strip leading and trailing whitespace
characters from both ends of the string. -/
def jsTrim (s : String) : String :=
  String.mk
    (((s.data.dropWhile Char.isWhitespace).reverse.dropWhile
        Char.isWhitespace).reverse)

/-- The component state of `ChatInterface` that `handleSend` reads and
writes: `messages`, `input`, `isLoading` (`page.tsx`, lines 114–116). -/
structure ChatUIState where
  messages : List ChatMessage
  input : String
  isLoading : Bool
  deriving Repr, DecidableEq

/-- The user `ChatMessage` built by `handleSend` (`page.tsx`,
lines 160–170): `message_type = 'user'`, `sources = []`, content in
`message`, empty `response`. -/
def mkUserMessage (now : String) (userMessage : String) (r : ChatResponse) :
    ChatMessage :=
  { id := "user-" ++ now
    chat_id := r.chat_id
    user_id := ""
    message := userMessage
    response := ""
    message_type := "user"
    sources := []
    timestamp := now }

/-- The assistant `ChatMessage` built by `handleSend` (`page.tsx`,
lines 172–182): `message_type = 'assistant'`, `sources` taken from the
response, content in `response`, empty `message`. -/
def mkAiMessage (now : String) (r : ChatResponse) : ChatMessage :=
  { id := "ai-" ++ now
    chat_id := r.chat_id
    user_id := ""
    message := ""
    response := r.response
    message_type := "assistant"
    sources := r.sources
    timestamp := r.timestamp }

/-- Everything observable about one run of `handleSend`: the component
state afterwards, whether a request was issued (`sendMessage` called),
the request body if one was issued, and the argument of `onChatCreated`
if it was invoked. -/
structure SendOutcome where
  ui : ChatUIState
  request : Option SendMessageRequest
  chatCreated : Option String
  deriving Repr, DecidableEq

/-- `handleSend` of `ChatInterface` (`page.tsx`, lines 143–191) as a pure
state transformer.  `chatId` is the component's `chatId` prop,
`sendResult` is what the awaited `sendMessage` call would return
(`none` models the `null` it returns on failure), `now` stands for the
`Date.now()` / `toISOString()` values taken during the call.

* Guard (line 144): if `input.trim()` is falsy or `isLoading`, return at
  once — nothing is sent, no state changes.
* Otherwise `input` is cleared, the request is posted, and on a non-null
  response the user and assistant messages are appended to `messages` in
  one `setMessages` call; on `null` the message list is left alone.
  `isLoading` is reset in the `finally` block. -/
def handleSend (st : ChatUIState) (chatId : Option String)
    (sendResult : Option ChatResponse) (now : String) : SendOutcome :=
  if jsTrim st.input = "" ∨ st.isLoading then
    { ui := st, request := none, chatCreated := none }
  else
    let userMessage := jsTrim st.input
    let req := sendMessageRequest userMessage chatId
    match sendResult with
    | none =>
        { ui := { messages := st.messages, input := "", isLoading := false }
          request := some req
          chatCreated := none }
    | some r =>
        { ui :=
            { messages :=
                st.messages ++ [mkUserMessage now userMessage r, mkAiMessage now r]
              input := ""
              isLoading := false }
          request := some req
          chatCreated := if chatId = none then some r.chat_id else none }

/-- The `disabled` condition of the send button (`page.tsx`, line 309):
`!input.trim() || isLoading`. -/
def sendButtonDisabled (input : String) (isLoading : Bool) : Bool :=
  jsTrim input = "" || isLoading

/-- `DashboardPage`'s `onChatCreated` handler (`src/unnamed/part_000`,
lines 110–113): when `ChatInterface` reports a newly created chat id, the
dashboard adopts it as `currentChatId`; otherwise `currentChatId` is left
as it was. -/
def dashboardAfterTurn (currentChatId : Option String)
    (chatCreated : Option String) : Option String :=
  match chatCreated with
  | some newId => some newId
  | none => currentChatId

/-- `getChatHistory` of `use-chat.ts` (lines 102–115) as a function of the
outcome of the `GET /api/chat/{chatId}/history` request: the response data
on success, `[]` on any error (the `catch` branch). -/
def getChatHistory (serverResult : Except String (List ChatMessage)) :
    List ChatMessage :=
  match serverResult with
  | .ok msgs => msgs
  | .error _ => []

/-- `deleteChat` of `use-chat.ts` (lines 117–131) as a function of the
outcome of the `DELETE /api/chat/{chatId}` request, acting on the local
`chats` state: on success it filters the deleted id out of `chats` and
returns `true`; on error it leaves `chats` alone and returns `false`. -/
def deleteChatLocal (chats : List Chat) (chatId : String)
    (serverResult : Except String Unit) : List Chat × Bool :=
  match serverResult with
  | .ok _ => (chats.filter (fun chat => chat.chat_id ≠ chatId), true)
  | .error _ => (chats, false)

/-- A JS `File` as `document-upload.tsx` consumes it: `name`, `type`
(MIME type), `size` in bytes. -/
structure JsFile where
  name : String
  type : String
  size : Nat
  deriving Repr, DecidableEq

/-- `onDrop` of `DocumentUpload` (`src/unnamed/part_002`, lines 20–27):
takes `acceptedFiles[0]`; if it exists and its MIME type is
`application/pdf` it becomes the selected file, otherwise an error toast
is shown and the selection is left as it was.  Returns the new selection
and whether the drop was rejected. -/
def onDrop (acceptedFiles : List JsFile) (selectedFile : Option JsFile) :
    Option JsFile × Bool :=
  match acceptedFiles.head? with
  | some file =>
      if file.type = "application/pdf" then (some file, false)
      else (selectedFile, true)
  | none => (selectedFile, true)

/-- `handleUpload` of `DocumentUpload` (`src/unnamed/part_002`,
lines 38–53): with no selected file it returns immediately; otherwise it
calls `uploadDocument(selectedFile)`.  The result is the file posted to
`POST /api/upload`, if any. -/
def handleUpload (selectedFile : Option JsFile) : Option JsFile :=
  match selectedFile with
  | none => none
  | some file => some file

/-- The `sizes` array of `formatFileSize` (`src/unnamed/part_002`,
line 62). -/
def sizes : List String := ["Bytes", "KB", "MB", "GB"]

/-- JS `x.toFixed(2)` followed by `parseFloat`, for non-negative `x`:
round to the nearest multiple of 1/100, halves away from zero. -/
def toFixed2 (q : ℚ) : ℚ := (⌊q * 100 + 1 / 2⌋ : ℤ) / 100

/-- `formatFileSize` of `DocumentUpload` (`src/unnamed/part_002`,
lines 59–65), with the numeric part and the unit kept separate.
`Math.floor(Math.log(bytes) / Math.log(1024))` is the floor of the
base-1024 logarithm, which for `bytes ≥ 1` is `Nat.log 1024 bytes`;
`sizes[i]` is the JS index access, `undefined` (`none`) out of range. -/
def formatFileSize (bytes : Nat) : ℚ × Option String :=
  if bytes = 0 then (0, some "Bytes")
  else
    let i := Nat.log 1024 bytes
    (toFixed2 ((bytes : ℚ) / 1024 ^ i), sizes[i]?)

/-- The comparator order used by `ChatSidebar` (`src/unnamed/part_003`,
lines 87–89): chat `a` may precede chat `b` when the comparator
`new Date(b.last_message_at).getTime() - new Date(a.last_message_at).getTime()`
is `≤ 0`, i.e. `b`'s parsed time is at most `a`'s.  `dateTime` stands for
`(s : String) ↦ new Date(s).getTime()`. -/
def chatBefore (dateTime : String → Nat) (a b : Chat) : Bool :=
  dateTime b.last_message_at ≤ dateTime a.last_message_at

/-- Insert into a list sorted by `le`, keeping it sorted: the model of how
`Array.prototype.sort` places one element. -/
def insertLe (le : Chat → Chat → Bool) (x : Chat) : List Chat → List Chat
  | [] => [x]
  | y :: ys => if le x y then x :: y :: ys else y :: insertLe le x ys

/-- Comparator sort: the model of
`[...chats].sort((a, b) => ...)` (`src/unnamed/part_003`, lines 87–89). -/
def sortLe (le : Chat → Chat → Bool) : List Chat → List Chat
  | [] => []
  | x :: xs => insertLe le x (sortLe le xs)

/-- `sortedChats` of `ChatSidebar`: the chat list sorted most-recent-first
by `last_message_at`. -/
def sortedChats (dateTime : String → Nat) (chats : List Chat) : List Chat :=
  sortLe (chatBefore dateTime) chats

/-- `renderMessage`'s similarity badge (`page.tsx`, line 245):
`Math.round(source.similarity_score * 100)`.  JS `Math.round x` is
`⌊x + 1/2⌋`. -/
def jsRound (q : ℚ) : ℤ := ⌊q + 1 / 2⌋

/-- The percentage shown for one source in `renderMessage`. -/
def sourceMatchPercent (s : Source) : ℤ := jsRound (s.similarity_score * 100)

/-- Modelled from the spec: the constraint `similarity_score ∈ [0,1]` on
`RetrievedPassage` (spec §3); the Retriever that produces the scores is
backend code not present in the repository snapshot. -/
def validSimilarityScore (q : ℚ) : Prop := 0 ≤ q ∧ q ≤ 1

/-- A persisted chat session of the backend store, with its message list
(`Message` records of spec §3). -/
structure StoredSession where
  chat_id : String
  owner_id : String
  title : String
  messages : List ChatMessage
  deriving Repr, DecidableEq

/-- The backend Chat Session Store state: the persisted sessions. -/
structure SessionStore where
  sessions : List StoredSession
  deriving Repr, DecidableEq

/-- The store-level error taxonomy relevant here (spec §7). -/
inductive StoreError where
  | NotFoundError
  deriving Repr, DecidableEq

/-- Modelled from the spec: `Chat Session Store.append` (spec §4.7); the
FastAPI backend is not part of the repository snapshot.  "if `chat_id` is
absent, creates a new ChatSession (title = first ~50 chars of the user
message) and returns the new id; otherwise appends both Messages to the
existing session after verifying ownership".  `freshId` stands for the
generated session id. -/
def SessionStore.append (st : SessionStore) (chatId : Option String)
    (ownerId : String) (userMsg assistantMsg : ChatMessage)
    (freshId : String) : Option (SessionStore × String) :=
  match chatId with
  | none =>
      some
        ({ sessions :=
            st.sessions ++
              [{ chat_id := freshId, owner_id := ownerId
                 title := userMsg.message.take 50
                 messages := [userMsg, assistantMsg] }] },
         freshId)
  | some cid =>
      if st.sessions.any (fun s => s.chat_id = cid && s.owner_id = ownerId) then
        some
          ({ sessions :=
              st.sessions.map (fun s =>
                if s.chat_id = cid then
                  { s with messages := s.messages ++ [userMsg, assistantMsg] }
                else s) },
           cid)
      else none

/-- Modelled from the spec: `Chat Session Store.delete` (spec §4.7); the
FastAPI backend is not part of the repository snapshot.  "removes session
and all Messages; fails with `NotFoundError` if no session with that id is
owned by `owner_id` (no distinction leaked between 'doesn't exist' and
'exists but not owned' — same error)". -/
def SessionStore.deleteSession (st : SessionStore) (chatId ownerId : String) :
    Except StoreError SessionStore :=
  if st.sessions.any (fun s => s.chat_id = chatId && s.owner_id = ownerId) then
    .ok { sessions := st.sessions.filter (fun s => s.chat_id ≠ chatId) }
  else
    .error .NotFoundError

/-- The store state after a delete attempt: the new state on success, the
old state when the call failed. -/
def SessionStore.afterDelete (st : SessionStore) (chatId ownerId : String) :
    SessionStore :=
  match st.deleteSession chatId ownerId with
  | .ok st' => st'
  | .error _ => st

lemma insertLe_head? (le : Chat → Chat → Bool) (x : Chat) (l : List Chat) :
    (insertLe le x l).head? = some x ∨ (insertLe le x l).head? = l.head? := by
  cases l with
  | nil => left; rfl
  | cons y ys =>
      by_cases h : le x y = true
      · left; simp only [insertLe]; rw [if_pos h]; rfl
      · right; simp only [insertLe]; rw [if_neg h]; rfl

lemma chain'_insertLe (le : Chat → Chat → Bool)
    (total : ∀ a b, le a b = true ∨ le b a = true) (x : Chat) (l : List Chat)
    (h : l.Chain' (fun a b => le a b = true)) :
    (insertLe le x l).Chain' (fun a b => le a b = true) := by
  induction l with
  | nil => simp [insertLe]
  | cons y ys ih =>
      rcases List.chain'_cons'.mp h with ⟨hy, hys⟩
      by_cases hxy : le x y = true
      · simp only [insertLe]
        rw [if_pos hxy]
        refine List.chain'_cons'.mpr ⟨?_, h⟩
        intro z hz
        have hz' : y = z := by simpa using hz
        rw [← hz']
        exact hxy
      · simp only [insertLe]
        rw [if_neg hxy]
        refine List.chain'_cons'.mpr ⟨?_, ih hys⟩
        intro z hz
        rcases insertLe_head? le x ys with hh | hh
        · rw [hh] at hz
          have hz' : x = z := by simpa using hz
          rw [← hz']
          exact (total x y).resolve_left hxy
        · rw [hh] at hz
          exact hy z hz

lemma chain'_sortLe (le : Chat → Chat → Bool)
    (total : ∀ a b, le a b = true ∨ le b a = true) (l : List Chat) :
    (sortLe le l).Chain' (fun a b => le a b = true) := by
  induction l with
  | nil => simp [sortLe]
  | cons x xs ih => exact chain'_insertLe le total x (sortLe le xs) ih

/-- C3: the chat sessions presented in the sidebar are ordered
most-recent-first by `last_message_at`: for every adjacent pair of the
displayed sequence, the earlier element's `last_message_at` (as parsed by
`new Date(...).getTime()`, here `dateTime`) is greater than or equal to
the later element's. -/
theorem chat_sessions_sorted_most_recent_first (dateTime : String → Nat)
    (chats : List Chat) :
    (sortedChats dateTime chats).Chain'
      (fun a b => dateTime b.last_message_at ≤ dateTime a.last_message_at) := by
  have total : ∀ a b, chatBefore dateTime a b = true ∨
      chatBefore dateTime b a = true := by
    intro a b
    simp only [chatBefore, decide_eq_true_eq]
    exact Nat.le_total _ _
  have h := chain'_sortLe (chatBefore dateTime) total chats
  refine List.Chain'.imp ?_ h
  intro a b hab
  simpa [chatBefore] using hab

/-- C4: a query whose text is empty or whitespace-only (`input.trim()`
empty) is rejected at once by `handleSend`: no request is issued, no
message is created, the component state is returned unchanged, and the
send button is disabled for such input. -/
theorem blank_query_rejected (st : ChatUIState) (chatId : Option String)
    (sendResult : Option ChatResponse) (now : String)
    (h : jsTrim st.input = "") :
    handleSend st chatId sendResult now
        = { ui := st, request := none, chatCreated := none }
      ∧ sendButtonDisabled st.input st.isLoading = true := by
  constructor
  · simp [handleSend, h]
  · simp [sendButtonDisabled, h]

theorem blank_query_rejected_witness :
    jsTrim (ChatUIState.mk [] "   " false).input = ""
      ∧ (handleSend (ChatUIState.mk [] "   " false) none none ""
            = { ui := ChatUIState.mk [] "   " false, request := none
                chatCreated := none }
          ∧ sendButtonDisabled (ChatUIState.mk [] "   " false).input
              (ChatUIState.mk [] "   " false).isLoading = true) :=
  ⟨by decide, blank_query_rejected (ChatUIState.mk [] "   " false) none none ""
    (by decide)⟩

/-- C7: a similarity score in `[0, 1]` renders as a percentage between 0
and 100: `Math.round(similarity_score * 100)` lies in `[0, 100]`. -/
theorem similarity_percent_within_bounds (s : Source)
    (h : validSimilarityScore s.similarity_score) :
    0 ≤ sourceMatchPercent s ∧ sourceMatchPercent s ≤ 100 := by
  obtain ⟨h0, h1⟩ := h
  unfold sourceMatchPercent jsRound
  constructor
  · refine Int.le_floor.mpr ?_
    push_cast
    nlinarith
  · have : (⌊s.similarity_score * 100 + 1 / 2⌋ : ℤ) < 101 := by
      refine Int.floor_lt.mpr ?_
      push_cast
      nlinarith
    omega

theorem similarity_percent_within_bounds_witness :
    validSimilarityScore (Source.mk "refund policy" (some 2) (37 / 100)).similarity_score
      ∧ (0 ≤ sourceMatchPercent (Source.mk "refund policy" (some 2) (37 / 100))
          ∧ sourceMatchPercent (Source.mk "refund policy" (some 2) (37 / 100)) ≤ 100) :=
  ⟨by constructor <;> norm_num,
   similarity_percent_within_bounds (Source.mk "refund policy" (some 2) (37 / 100))
     (by constructor <;> norm_num)⟩

/-- C9: a failed chat-history request makes `getChatHistory` return the
empty sequence, indistinguishable at the hook interface from a successful
load of a chat with no messages. -/
theorem failed_history_load_empty (e : String) :
    getChatHistory (.error e) = []
      ∧ getChatHistory (.error e) = getChatHistory (.ok []) := by
  exact ⟨rfl, rfl⟩

/-- C1: one chat turn commits the user and assistant messages as an atomic
pair.  On a successful turn (`sendMessage` returned a response) the
message list grows by exactly the two entries, user message first,
assistant message second, appended in a single state update; on a failed
turn (`sendMessage` yielded `null`) the message list is unchanged, so a
partial turn is never observable. -/
theorem chat_turn_atomic_pair (st : ChatUIState) (chatId : Option String)
    (r : ChatResponse) (now : String)
    (hinput : jsTrim st.input ≠ "") (hload : st.isLoading = false) :
    (handleSend st chatId (some r) now).ui.messages
        = st.messages ++ [mkUserMessage now (jsTrim st.input) r, mkAiMessage now r]
      ∧ (handleSend st chatId (some r) now).ui.messages.length
          = st.messages.length + 2
      ∧ (mkUserMessage now (jsTrim st.input) r).message_type = "user"
      ∧ (mkAiMessage now r).message_type = "assistant"
      ∧ (handleSend st chatId none now).ui.messages = st.messages := by
  refine ⟨?_, ?_, rfl, rfl, ?_⟩ <;>
    simp [handleSend, hinput, hload]

theorem chat_turn_atomic_pair_witness :
    jsTrim (ChatUIState.mk [] "hello" false).input ≠ ""
      ∧ (ChatUIState.mk [] "hello" false).isLoading = false
      ∧ ((handleSend (ChatUIState.mk [] "hello" false) none
            (some (ChatResponse.mk "hi there" "chat-1" [] "t1")) "n1").ui.messages
          = (ChatUIState.mk [] "hello" false).messages ++
              [mkUserMessage "n1" (jsTrim (ChatUIState.mk [] "hello" false).input)
                 (ChatResponse.mk "hi there" "chat-1" [] "t1"),
               mkAiMessage "n1" (ChatResponse.mk "hi there" "chat-1" [] "t1")]
        ∧ (handleSend (ChatUIState.mk [] "hello" false) none
            (some (ChatResponse.mk "hi there" "chat-1" [] "t1")) "n1").ui.messages.length
          = (ChatUIState.mk [] "hello" false).messages.length + 2
        ∧ (mkUserMessage "n1" (jsTrim (ChatUIState.mk [] "hello" false).input)
            (ChatResponse.mk "hi there" "chat-1" [] "t1")).message_type = "user"
        ∧ (mkAiMessage "n1" (ChatResponse.mk "hi there" "chat-1" [] "t1")).message_type
          = "assistant"
        ∧ (handleSend (ChatUIState.mk [] "hello" false) none none "n1").ui.messages
          = (ChatUIState.mk [] "hello" false).messages) :=
  ⟨by decide, by decide,
   chat_turn_atomic_pair (ChatUIState.mk [] "hello" false) none
     (ChatResponse.mk "hi there" "chat-1" [] "t1") "n1" (by decide) (by decide)⟩

/-- C2: a turn sent without a `chat_id` creates a new ChatSession whose id
is returned in the response (backend part modelled from the spec), the
frontend reports that id through `onChatCreated`, the dashboard adopts it
as `currentChatId`, and every subsequent turn posts its request with that
adopted `chat_id`. -/
theorem new_chat_id_created_and_adopted
    (st : ChatUIState) (r : ChatResponse) (now : String)
    (store : SessionStore) (ownerId freshId : String)
    (userMsg assistantMsg : ChatMessage) (cur : Option String)
    (hinput : jsTrim st.input ≠ "") (hload : st.isLoading = false) :
    store.append none ownerId userMsg assistantMsg freshId
        = some
            ({ sessions := store.sessions ++
                [{ chat_id := freshId, owner_id := ownerId
                   title := userMsg.message.take 50
                   messages := [userMsg, assistantMsg] }] }, freshId)
      ∧ (handleSend st none (some r) now).chatCreated = some r.chat_id
      ∧ dashboardAfterTurn cur ((handleSend st none (some r) now).chatCreated)
          = some r.chat_id
      ∧ ∀ st₂ : ChatUIState, jsTrim st₂.input ≠ "" → st₂.isLoading = false →
          (handleSend st₂
              (dashboardAfterTurn cur
                ((handleSend st none (some r) now).chatCreated))
              (some r) now).request
            = some (sendMessageRequest (jsTrim st₂.input) (some r.chat_id)) := by
  have hc : (handleSend st none (some r) now).chatCreated = some r.chat_id := by
    simp [handleSend, hinput, hload]
  refine ⟨rfl, hc, ?_, ?_⟩
  · rw [hc]; rfl
  · intro st₂ h2 l2
    rw [hc]
    simp [handleSend, dashboardAfterTurn, h2, l2]

theorem new_chat_id_created_and_adopted_witness :
    jsTrim (ChatUIState.mk [] "what is refunded?" false).input ≠ ""
      ∧ (ChatUIState.mk [] "what is refunded?" false).isLoading = false
      ∧ (handleSend (ChatUIState.mk [] "what is refunded?" false) none
            (some (ChatResponse.mk "within 14 days" "chat-7" [] "t2")) "n2").chatCreated
          = some (ChatResponse.mk "within 14 days" "chat-7" [] "t2").chat_id
      ∧ dashboardAfterTurn none
            ((handleSend (ChatUIState.mk [] "what is refunded?" false) none
                (some (ChatResponse.mk "within 14 days" "chat-7" [] "t2")) "n2").chatCreated)
          = some (ChatResponse.mk "within 14 days" "chat-7" [] "t2").chat_id :=
  ⟨by decide, by decide,
   (new_chat_id_created_and_adopted (ChatUIState.mk [] "what is refunded?" false)
       (ChatResponse.mk "within 14 days" "chat-7" [] "t2") "n2"
       (SessionStore.mk []) "owner-1" "chat-7"
       (ChatMessage.mk "m1" "chat-7" "owner-1" "what is refunded?" "" "user" [] "n2")
       (ChatMessage.mk "m2" "chat-7" "owner-1" "" "within 14 days" "assistant" [] "t2")
       none (by decide) (by decide)).2.1,
   (new_chat_id_created_and_adopted (ChatUIState.mk [] "what is refunded?" false)
       (ChatResponse.mk "within 14 days" "chat-7" [] "t2") "n2"
       (SessionStore.mk []) "owner-1" "chat-7"
       (ChatMessage.mk "m1" "chat-7" "owner-1" "what is refunded?" "" "user" [] "n2")
       (ChatMessage.mk "m2" "chat-7" "owner-1" "" "within 14 days" "assistant" [] "t2")
       none (by decide) (by decide)).2.2.1⟩

/-- The two shapes `handleSend` can leave the message list in: unchanged,
or the old list with the user/assistant pair appended. -/
lemma handleSend_messages_cases (st : ChatUIState) (chatId : Option String)
    (sendResult : Option ChatResponse) (now : String) :
    (handleSend st chatId sendResult now).ui.messages = st.messages
      ∨ ∃ r, sendResult = some r
          ∧ (handleSend st chatId sendResult now).ui.messages
            = st.messages ++
                [mkUserMessage now (jsTrim st.input) r, mkAiMessage now r] := by
  by_cases hguard : jsTrim st.input = "" ∨ st.isLoading = true
  · left; simp [handleSend, hguard]
  · cases sendResult with
    | none => left; simp [handleSend, hguard]
    | some r => right; exact ⟨r, rfl, by simp [handleSend, hguard]⟩

/-- The C6 invariant: every user-role message carries no sources. -/
def userMessagesHaveNoSources (msgs : List ChatMessage) : Prop :=
  ∀ m ∈ msgs, m.message_type = "user" → m.sources = []

/-- C6: only assistant messages carry retrieved sources.  The user message
built for a turn has `sources = []` and role `user`, the paired assistant
message carries exactly the response's sources, and `handleSend` preserves
the invariant that every user-role message in the list has no sources. -/
theorem user_messages_have_empty_sources (st : ChatUIState)
    (chatId : Option String) (sendResult : Option ChatResponse) (now : String)
    (h : userMessagesHaveNoSources st.messages) :
    userMessagesHaveNoSources (handleSend st chatId sendResult now).ui.messages
      ∧ (∀ userMessage r, (mkUserMessage now userMessage r).sources = []
          ∧ (mkUserMessage now userMessage r).message_type = "user")
      ∧ ∀ r : ChatResponse, (mkAiMessage now r).sources = r.sources
          ∧ (mkAiMessage now r).message_type = "assistant" := by
  refine ⟨?_, fun u r => ⟨rfl, rfl⟩, fun r => ⟨rfl, rfl⟩⟩
  rcases handleSend_messages_cases st chatId sendResult now with heq | ⟨r, _, heq⟩
  · rw [heq]; exact h
  · rw [heq]
    intro m hm hmt
    rcases List.mem_append.mp hm with hm | hm
    · exact h m hm hmt
    · have hm' : m = mkUserMessage now (jsTrim st.input) r ∨ m = mkAiMessage now r := by
        simpa using hm
      rcases hm' with hm' | hm'
      · rw [hm']
        rfl
      · rw [hm'] at hmt
        have hai : (mkAiMessage now r).message_type = "assistant" := rfl
        rw [hai] at hmt
        exact absurd hmt (by decide)

theorem user_messages_have_empty_sources_witness :
    userMessagesHaveNoSources (ChatUIState.mk [] "hello" false).messages
      ∧ userMessagesHaveNoSources
          (handleSend (ChatUIState.mk [] "hello" false) none
            (some (ChatResponse.mk "hi" "chat-2"
              [Source.mk "snippet" (some 1) (9 / 10)] "t3")) "n3").ui.messages :=
  ⟨fun m hm => (List.not_mem_nil m hm).elim,
   (user_messages_have_empty_sources (ChatUIState.mk [] "hello" false) none
     (some (ChatResponse.mk "hi" "chat-2"
       [Source.mk "snippet" (some 1) (9 / 10)] "t3")) "n3"
     (fun m hm => (List.not_mem_nil m hm).elim)).1⟩

/-- C5: deleting a chat whose id does not name a session owned by the
caller — absent or owned by someone else — fails with `NotFoundError`
(the one error value, so the two cases are indistinguishable), the store
is unchanged afterwards with every session intact, and the frontend
leaves the local chat list unchanged on a failed delete. -/
theorem delete_unowned_chat_not_found (store : SessionStore)
    (chatId ownerId : String) (chats : List Chat) (e : String)
    (h : ∀ s ∈ store.sessions, ¬(s.chat_id = chatId ∧ s.owner_id = ownerId)) :
    store.deleteSession chatId ownerId = .error .NotFoundError
      ∧ store.afterDelete chatId ownerId = store
      ∧ (∀ s ∈ store.sessions, s ∈ (store.afterDelete chatId ownerId).sessions)
      ∧ deleteChatLocal chats chatId (.error e) = (chats, false) := by
  have hany : ¬(store.sessions.any
      (fun s => s.chat_id = chatId && s.owner_id = ownerId) = true) := by
    intro hc
    rcases List.any_eq_true.mp hc with ⟨s, hs, hp⟩
    simp only [Bool.and_eq_true, decide_eq_true_eq] at hp
    exact h s hs hp
  have hdel : store.deleteSession chatId ownerId = .error .NotFoundError := by
    unfold SessionStore.deleteSession
    exact if_neg hany
  have hafter : store.afterDelete chatId ownerId = store := by
    unfold SessionStore.afterDelete
    rw [hdel]
  exact ⟨hdel, hafter, fun s hs => by rw [hafter]; exact hs, rfl⟩

theorem delete_unowned_chat_not_found_witness :
    (∀ s ∈ (SessionStore.mk
        [StoredSession.mk "chat-9" "alice" "refunds" []]).sessions,
      ¬(s.chat_id = "chat-9" ∧ s.owner_id = "bob"))
      ∧ (SessionStore.mk
          [StoredSession.mk "chat-9" "alice" "refunds" []]).deleteSession
            "chat-9" "bob" = .error .NotFoundError
      ∧ (SessionStore.mk
          [StoredSession.mk "chat-9" "alice" "refunds" []]).afterDelete
            "chat-9" "bob"
          = SessionStore.mk [StoredSession.mk "chat-9" "alice" "refunds" []] :=
  ⟨by decide,
   (delete_unowned_chat_not_found
     (SessionStore.mk [StoredSession.mk "chat-9" "alice" "refunds" []])
     "chat-9" "bob" [] "HTTP 404" (by decide)).1,
   (delete_unowned_chat_not_found
     (SessionStore.mk [StoredSession.mk "chat-9" "alice" "refunds" []])
     "chat-9" "bob" [] "HTTP 404" (by decide)).2.1⟩

/-- The C8 invariant: whatever file is selected has MIME type
`application/pdf`. -/
def selectedIsPdf (sel : Option JsFile) : Prop :=
  ∀ f, sel = some f → f.type = "application/pdf"

lemma handleUpload_eq (sel : Option JsFile) : handleUpload sel = sel := by
  cases sel <;> rfl

/-- C8: a dropped file whose MIME type is not `application/pdf` is
rejected: the drop leaves the selection unchanged and reports an error,
the only-PDF invariant on the selection is preserved by every drop, and
any file that `handleUpload` actually posts is a PDF. -/
theorem non_pdf_selection_rejected (acceptedFiles : List JsFile)
    (sel : Option JsFile) (f : JsFile) (hsel : selectedIsPdf sel) :
    selectedIsPdf (onDrop acceptedFiles sel).1
      ∧ (acceptedFiles.head? = some f → f.type ≠ "application/pdf" →
          onDrop acceptedFiles sel = (sel, true))
      ∧ ∀ g, handleUpload (onDrop acceptedFiles sel).1 = some g →
          g.type = "application/pdf" := by
  have hmain : selectedIsPdf (onDrop acceptedFiles sel).1 := by
    unfold onDrop
    split
    · split
      · intro g hg
        rename_i file heq ht
        have hg' : some file = some g := hg
        have hfg : file = g := Option.some.inj hg'
        rw [← hfg]
        exact ht
      · exact hsel
    · exact hsel
  refine ⟨hmain, ?_, ?_⟩
  · intro hd ht
    unfold onDrop
    rw [hd]
    exact if_neg ht
  · intro g hg
    rw [handleUpload_eq] at hg
    exact hmain g hg

theorem non_pdf_selection_rejected_witness :
    selectedIsPdf none
      ∧ onDrop [JsFile.mk "notes.txt" "text/plain" 100] none = (none, true) :=
  ⟨fun g hg => Option.noConfusion hg,
   (non_pdf_selection_rejected [JsFile.mk "notes.txt" "text/plain" 100] none
       (JsFile.mk "notes.txt" "text/plain" 100)
       (fun g hg => Option.noConfusion hg)).2.1 rfl (by decide)⟩

lemma formatFileSize_fst (b : Nat) (hb : b ≠ 0) :
    (formatFileSize b).1 = toFixed2 ((b : ℚ) / 1024 ^ Nat.log 1024 b) := by
  simp [formatFileSize, hb]

lemma formatFileSize_snd (b : Nat) (hb : b ≠ 0) :
    (formatFileSize b).2 = sizes[Nat.log 1024 b]? := by
  simp [formatFileSize, hb]

/-- C10: `formatFileSize 0` is `0 Bytes`; for every byte count `b` with
`1 ≤ b < 1024 ^ 4` the result is a positive number together with exactly
one of the four units, because the unit index
`⌊log b / log 1024⌋ = Nat.log 1024 b` stays below the length of `sizes`;
at `b = 1024 ^ 4` the index leaves the array (`sizes[4]` is undefined), so
the precondition is sharp. -/
theorem formatFileSize_unit_bounds (b : Nat) (h1 : 1 ≤ b)
    (h2 : b < 1024 ^ 4) :
    formatFileSize 0 = (0, some "Bytes")
      ∧ 0 < (formatFileSize b).1
      ∧ (∃ u, (formatFileSize b).2 = some u ∧ u ∈ sizes)
      ∧ (formatFileSize (1024 ^ 4)).2 = none := by
  have hb0 : b ≠ 0 := by omega
  have hlog4 : Nat.log 1024 b < 4 :=
    (Nat.lt_pow_iff_log_lt (by norm_num) hb0).mp h2
  have hpow : 1024 ^ Nat.log 1024 b ≤ b := Nat.pow_log_le_self 1024 hb0
  refine ⟨rfl, ?_, ?_, ?_⟩
  · rw [formatFileSize_fst b hb0]
    unfold toFixed2
    have hq1 : (1 : ℚ) ≤ (b : ℚ) / 1024 ^ Nat.log 1024 b := by
      rw [le_div_iff₀ (by positivity), one_mul]
      exact_mod_cast hpow
    have hfloor : (100 : ℤ) ≤
        ⌊(b : ℚ) / 1024 ^ Nat.log 1024 b * 100 + 1 / 2⌋ := by
      refine Int.le_floor.mpr ?_
      push_cast
      nlinarith
    have h100 : (0 : ℚ) <
        (⌊(b : ℚ) / 1024 ^ Nat.log 1024 b * 100 + 1 / 2⌋ : ℚ) := by
      exact_mod_cast lt_of_lt_of_le (by norm_num : (0 : ℤ) < 100) hfloor
    positivity
  · rw [formatFileSize_snd b hb0]
    have hlen : Nat.log 1024 b < sizes.length := by
      simpa [sizes] using hlog4
    exact ⟨sizes[Nat.log 1024 b],
      List.getElem?_eq_getElem hlen, List.getElem_mem hlen⟩
  · have h40 : (1024 : Nat) ^ 4 ≠ 0 := by positivity
    rw [formatFileSize_snd _ h40, Nat.log_pow (by norm_num)]
    rfl

theorem formatFileSize_unit_bounds_witness :
    1 ≤ 2048
      ∧ 2048 < 1024 ^ 4
      ∧ (formatFileSize 0 = (0, some "Bytes")
          ∧ 0 < (formatFileSize 2048).1
          ∧ (∃ u, (formatFileSize 2048).2 = some u ∧ u ∈ sizes)
          ∧ (formatFileSize (1024 ^ 4)).2 = none) :=
  ⟨by norm_num, by norm_num,
   formatFileSize_unit_bounds 2048 (by norm_num) (by norm_num)⟩
